import Mathlib

/-!
# SEO optimizer dashboard: the response-to-view mapping of `handleAnalyze`

A shallow embedding of `src/src/App.js`, lines 133-174 (`handleAnalyze`),
followed by the properties proved of it.

Conventions of the embedding.

* The parsed JSON body `data` is a record whose fields follow the data model
  the application expects.  A property that is `undefined` or `null` in
  JavaScript is `none`; both are nullish and falsy, and the handler never
  tells them apart.
* A JavaScript number is the rational value (`ℚ`) of a binary64 double.  The
  product `score * 100` is rounded as IEEE-754 prescribes, to the nearest
  double with a tie going to the even significand (`mulBinary64`).
  `Math.round` is exact on doubles and returns an integer (`ℤ`).  Overflow to
  `Infinity` is not modelled: it needs a score beyond `1.7e306`, and the data
  model bounds a score by 1.
* JavaScript truthiness is spelled out per type: an object or array that is
  present is truthy, a number is truthy unless it is `0`, a string is truthy
  unless it is empty.
* React state (`url`, `loading`, `results`, `error`) is an explicit record and
  `handleAnalyze` is a function from the state before the submission and the
  outcome of `fetch` to the state after it.
-/

namespace SeoOptimizer

/-! ## Data model of the backend response -/

/-- One Lighthouse category, `categories.seo` or `categories.performance`. -/
structure Category where
  score : Option ℚ
deriving DecidableEq

/-- The object `lighthouseResult.categories`. -/
structure Categories where
  seo : Option Category
  performance : Option Category
deriving DecidableEq

/-- The object `performance.lighthouseResult`. -/
structure LighthouseResult where
  categories : Option Categories
deriving DecidableEq

/-- The object `data.performance`. -/
structure Performance where
  lighthouseResult : Option LighthouseResult
deriving DecidableEq

/-- The object `data.nlp`; `top_keywords` is an array of `[word, count]` pairs. -/
structure Nlp where
  top_keywords : Option (List (String × ℤ))
deriving DecidableEq

/-- The object `data.images`. -/
structure Images where
  missing_alt : Option (List String)
  count : Option ℤ
deriving DecidableEq

/-- The object `data.meta`: meta-tag name to content, as a list of bindings. -/
abbrev MetaTags := List (String × String)

/-- The object `data.headings`: heading tag to the texts of its headings. -/
abbrev Headings := List (String × List String)

/-- The parsed body of a successful `/analyze` response (`data` in the source). -/
structure AnalysisResponse where
  performance : Option Performance
  nlp : Option Nlp
  images : Option Images
  meta : Option MetaTags
  headings : Option Headings
deriving DecidableEq

/-- The object handed to `setResults` (App.js, lines 155-168). -/
structure ViewModel where
  seo : ℤ
  performance : ℤ
  keywords : List (String × ℤ)
  suggestions : List String
  meta : Option MetaTags
  headings : Option Headings
  images : Option Images
deriving DecidableEq

/-! ## JavaScript primitives used by the handler -/

/-- Rounding of a rational to the nearest integer, a tie going to the even
neighbour. -/
def roundHalfEven (y : ℚ) : ℤ :=
  if y - ⌊y⌋ < 1 / 2 then ⌊y⌋
  else if 1 / 2 < y - ⌊y⌋ then ⌊y⌋ + 1
  else if ⌊y⌋ % 2 = 0 then ⌊y⌋
  else ⌊y⌋ + 1

/-- The binary exponent of the unit in the last place of the binary64 format at
`x`: a significand of 53 bits, with the exponent of the subnormal numbers,
`-1074`, as the least one. -/
def ulpExponent (x : ℚ) : ℤ := max (Int.log 2 |x| - 52) (-1074)

/-- The binary64 double nearest to `x`, a tie going to the even significand
(IEEE-754 `roundTiesToEven`, the only rounding mode of JavaScript). -/
def roundBinary64 (x : ℚ) : ℚ :=
  roundHalfEven (x / 2 ^ ulpExponent x) * 2 ^ ulpExponent x

/-- The JavaScript product `x * y` of two doubles: the exact product, rounded
to binary64. -/
def mulBinary64 (x y : ℚ) : ℚ := roundBinary64 (x * y)

/-- JavaScript `Math.round`: the nearest integer, a tie going towards `+∞`. -/
def Math.round (x : ℚ) : ℤ := ⌊x + 1 / 2⌋

/-- The expression `v || d` for a possibly absent number `v`: a present,
non-zero number is truthy and is the result; otherwise the result is `d`. -/
def orNumber (v : Option ℚ) (d : ℚ) : ℚ :=
  match v with
  | some x => if x = 0 then d else x
  | none => d

/-- The expression `v || d` for a possibly absent array `v`: any array,
also the empty one, is truthy. -/
def orArray {α : Type} (v : Option (List α)) (d : List α) : List α :=
  match v with
  | some xs => xs
  | none => d

/-- Property read `meta.description`. -/
def MetaTags.description (m : MetaTags) : Option String :=
  m.lookup "description"

/-- Truthiness of a possibly absent string. -/
def truthyString (v : Option String) : Bool :=
  match v with
  | some s => s != ""
  | none => false

/-! ## The body of `handleAnalyze` -/

/-- The guard of line 151 together with the object it reaches:
`data.performance && data.performance.lighthouseResult &&
 data.performance.lighthouseResult.categories`. -/
def categoriesOf (data : AnalysisResponse) : Option Categories :=
  match data.performance with
  | none => none
  | some p =>
    match p.lighthouseResult with
    | none => none
    | some l => l.categories

/-- The local `seo` after lines 150-154: `null` (here `none`) unless the guard
of line 151 holds, otherwise
`Math.round((categories.seo?.score || 0) * 100)`. -/
def seoLocal (data : AnalysisResponse) : Option ℤ :=
  match categoriesOf data with
  | none => none
  | some cats =>
    some (Math.round (mulBinary64 (orNumber (cats.seo.bind Category.score) 0) 100))

/-- The local `performance` after lines 150-154, built as `seoLocal` is, from
`categories.performance?.score`. -/
def performanceLocal (data : AnalysisResponse) : Option ℤ :=
  match categoriesOf data with
  | none => none
  | some cats =>
    some (Math.round (mulBinary64 (orNumber (cats.performance.bind Category.score) 0) 100))

/-- The value `data.images?.missing_alt?.length` (line 160), `none` when the
optional chain stops short. -/
def missingAltLength (data : AnalysisResponse) : Option ℕ :=
  (data.images.bind Images.missing_alt).map List.length

/-- The template literal of line 160 with the array length `n` filled in. -/
def altMessage (n : ℕ) : String :=
  "Add alt text to " ++ toString n ++ " image(s)."

/-- Line 160: the alt-text suggestion, present when the length is truthy. -/
def altSuggestion (data : AnalysisResponse) : List String :=
  match missingAltLength data with
  | none => []
  | some n => if n = 0 then [] else [altMessage n]

/-- Line 161: `data.meta && !data.meta.description ? [...] : []`. -/
def metaSuggestion (data : AnalysisResponse) : List String :=
  match data.meta with
  | none => []
  | some m => if truthyString m.description then [] else ["Add a meta description."]

/-- Line 162: `seo !== null && seo < 90 ? [...] : []`. -/
def seoSuggestion (data : AnalysisResponse) : List String :=
  match seoLocal data with
  | none => []
  | some v => if v < 90 then ["Improve SEO best practices."] else []

/-- Line 163: `performance !== null && performance < 90 ? [...] : []`. -/
def performanceSuggestion (data : AnalysisResponse) : List String :=
  match performanceLocal data with
  | none => []
  | some v => if v < 90 then ["Improve page speed and performance."] else []

/-- The object passed to `setResults` on lines 155-168. -/
def resultsOf (data : AnalysisResponse) : ViewModel where
  seo := (seoLocal data).getD 0
  performance := (performanceLocal data).getD 0
  keywords := orArray (data.nlp.bind Nlp.top_keywords) []
  suggestions :=
    altSuggestion data ++ metaSuggestion data ++ seoSuggestion data ++
      performanceSuggestion data
  meta := data.meta
  headings := data.headings
  images := data.images

/-! ## The submission as a transition on the UI state -/

/-- The React state of `App` (lines 84-87). -/
structure UIState where
  url : String
  loading : Bool
  results : Option ViewModel
  error : String
deriving DecidableEq

/-- What awaiting `fetch` and then `res.json()` can produce: `fetch` rejects
with an error carrying a message, or a response arrives with a status code and
a body that either parses to `data` or makes `res.json()` reject. -/
inductive FetchOutcome where
  | rejected (message : String)
  | responded (status : ℕ) (body : Except String AnalysisResponse)

/-- The flag `res.ok`: the status is in the range 200-299. -/
def resOk (status : ℕ) : Bool := decide (200 ≤ status) && decide (status ≤ 299)

/-- The `try` block (lines 139-168): the view model handed to `setResults`, or
the message of the error thrown. -/
def tryBlock (outcome : FetchOutcome) : Except String ViewModel :=
  match outcome with
  | .rejected message => .error message
  | .responded status body =>
    if resOk status then
      match body with
      | .ok data => .ok (resultsOf data)
      | .error message => .error message
    else .error "Failed to analyze."

/-- The function `handleAnalyze` (lines 133-174): the three resets of lines
135-137, then the `try` block with its `catch`, then the `finally`. -/
def handleAnalyze (st : UIState) (outcome : FetchOutcome) : UIState :=
  let st1 : UIState := { st with loading := true }
  let st2 : UIState := { st1 with results := none }
  let st3 : UIState := { st2 with error := "" }
  let st4 : UIState :=
    match tryBlock outcome with
    | .ok vm => { st3 with results := some vm }
    | .error message =>
      { st3 with error := if message = "" then "An error occurred." else message }
  { st4 with loading := false }

/-! ## Notions the statements are phrased in -/

/-- The source score of the `seo` field as the data model names it:
`performance.lighthouseResult.categories.seo.score`, `none` as soon as one
step of the path is missing. -/
def seoScore (data : AnalysisResponse) : Option ℚ :=
  (((data.performance.bind Performance.lighthouseResult).bind
    LighthouseResult.categories).bind Categories.seo).bind Category.score

/-- The source score of the `performance` field:
`performance.lighthouseResult.categories.performance.score`. -/
def performanceScore (data : AnalysisResponse) : Option ℚ :=
  (((data.performance.bind Performance.lighthouseResult).bind
    LighthouseResult.categories).bind Categories.performance).bind Category.score

/-- The sequence `images.missing_alt`, `none` when `images` or the field is
missing. -/
def missingAlt (data : AnalysisResponse) : Option (List String) :=
  data.images.bind Images.missing_alt

/-- The value `meta.description`, `none` when `meta` or the key is missing. -/
def metaDescription (data : AnalysisResponse) : Option String :=
  data.meta.bind MetaTags.description

/-- The sequence `nlp.top_keywords`, `none` when `nlp` or the field is
missing. -/
def topKeywords (data : AnalysisResponse) : Option (List (String × ℤ)) :=
  data.nlp.bind Nlp.top_keywords

/-- First suggestion predicate: `images.missing_alt` is non-empty. -/
def altPredicate (data : AnalysisResponse) : Prop :=
  ∃ l, missingAlt data = some l ∧ l ≠ []

/-- Second suggestion predicate: `meta.description` is absent or empty. -/
def metaPredicate (data : AnalysisResponse) : Prop :=
  metaDescription data = none ∨ metaDescription data = some ""

/-- Third suggestion predicate: the normalized `seo` is below 90. -/
def seoPredicate (data : AnalysisResponse) : Prop :=
  (resultsOf data).seo < 90

/-- Fourth suggestion predicate: the normalized `performance` is below 90. -/
def performancePredicate (data : AnalysisResponse) : Prop :=
  (resultsOf data).performance < 90

/-- The string `s` begins with the string `p`. -/
def beginsWith (p s : String) : Prop := p.data <+: s.data

/-- The response `{}`: every optional sub-object is missing. -/
def emptyResponse : AnalysisResponse :=
  { performance := none, nlp := none, images := none, meta := none, headings := none }

/-- The response `{images: {missing_alt: ["a.png"]}}`. -/
def altOnly : AnalysisResponse :=
  { emptyResponse with images := some { missing_alt := some ["a.png"], count := none } }

/-- A response holding Lighthouse categories with the given two scores and
nothing else. -/
def scoresOnly (seo performance : Option ℚ) : AnalysisResponse :=
  { emptyResponse with
    performance := some
      { lighthouseResult := some
          { categories := some
              { seo := some { score := seo },
                performance := some { score := performance } } } } }

/-- The scenario of the specification: scores 0.95 and 0.62, read as the
doubles nearest to them, one image without alt text out of five, an empty
`meta` object, two keywords. -/
def scenario : AnalysisResponse :=
  { scoresOnly (some (roundBinary64 (95 / 100))) (some (roundBinary64 (62 / 100))) with
    images := some { missing_alt := some ["a.png"], count := some 5 }
    meta := some []
    nlp := some { top_keywords := some [("seo", 12), ("site", 7)] } }

/-- A response for which all four suggestions fire: both scores 0.5, two
images without alt text, a `meta` object with an empty description. -/
def belowPar : AnalysisResponse :=
  { scoresOnly (some (1 / 2)) (some (1 / 2)) with
    images := some { missing_alt := some ["a.png", "b.png"], count := some 2 }
    meta := some [("description", "")] }

/-- A response for which no suggestion fires: both scores 1, no image without
alt text, a non-empty meta description. -/
def spotless : AnalysisResponse :=
  { scoresOnly (some 1) (some 1) with
    images := some { missing_alt := some [], count := some 3 }
    meta := some [("description", "A page about tea")] }

/-- The double written `0.015`.  Its exact value lies `2 ^ (-54) / 100` below
`15 / 1000`, so that a hundred times it lies `2 ^ (-54)` below `3 / 2`. -/
def nearHalfScore : ℚ := 1080863910568919 / 2 ^ 56

/-- A response holding Lighthouse categories whose two scores are the double
written `0.015`. -/
def nearHalf : AnalysisResponse :=
  scoresOnly (some nearHalfScore) (some nearHalfScore)

/-- The relation between a view-model score `n` and its source score `s` that
the handler guarantees: `n` is the integer nearest, a half going up, to the
double product `s * 100`; that product is within `2 ^ (-47)` of the exact
`100 * s`; and so `n` is the integer nearest to the exact `100 * s` whenever
`100 * s` keeps a distance of `2 ^ (-47)` from the half-integers. -/
def IsRoundedProduct (n : ℤ) (s : ℚ) : Prop :=
  ((n : ℚ) - 1 / 2 ≤ mulBinary64 s 100 ∧ mulBinary64 s 100 < (n : ℚ) + 1 / 2) ∧
  |mulBinary64 s 100 - 100 * s| ≤ 1 / 2 ^ 47 ∧
  ∀ k : ℤ, (k : ℚ) - 1 / 2 + 1 / 2 ^ 47 ≤ 100 * s →
    100 * s < (k : ℚ) + 1 / 2 - 1 / 2 ^ 47 → n = k

/-- A state that shows the results of an earlier analysis. -/
def showingResults : UIState :=
  { url := "https://example.com", loading := false,
    results := some (resultsOf emptyResponse), error := "" }

/-! ## Auxiliary facts about binary64 rounding -/

theorem roundHalfEven_cases (y : ℚ) : roundHalfEven y = ⌊y⌋ ∨ roundHalfEven y = ⌊y⌋ + 1 := by
  unfold roundHalfEven
  split_ifs <;> simp

theorem abs_roundHalfEven_sub_le (y : ℚ) : |(roundHalfEven y : ℚ) - y| ≤ 1 / 2 := by
  have h1 := Int.floor_le y
  have h2 := Int.lt_floor_add_one y
  unfold roundHalfEven
  rw [abs_le]
  split_ifs with ha hb hc <;> push_cast <;> constructor <;> linarith

theorem roundHalfEven_of_near (y : ℚ) (n : ℤ) (h1 : (n : ℚ) - 1 / 2 < y)
    (h2 : y < n + 1 / 2) : roundHalfEven y = n := by
  have h := abs_roundHalfEven_sub_le y
  rw [abs_le] at h
  have h3 : ((roundHalfEven y : ℤ) : ℚ) < n + 1 := by linarith [h.2]
  have h4 : ((n : ℤ) : ℚ) - 1 < roundHalfEven y := by linarith [h.1]
  have h5 : roundHalfEven y < n + 1 := by exact_mod_cast h3
  have h6 : n - 1 < roundHalfEven y := by exact_mod_cast h4
  omega

theorem roundHalfEven_nonneg (y : ℚ) (h : 0 ≤ y) : 0 ≤ roundHalfEven y := by
  have hf : 0 ≤ ⌊y⌋ := Int.floor_nonneg.mpr h
  rcases roundHalfEven_cases y with h1 | h1 <;> omega

theorem roundHalfEven_intCast (n : ℤ) : roundHalfEven (n : ℚ) = n :=
  roundHalfEven_of_near _ n (by linarith) (by linarith)

theorem roundHalfEven_le (y : ℚ) (n : ℤ) (h : y ≤ n) : roundHalfEven y ≤ n := by
  rcases eq_or_lt_of_le h with h1 | h1
  · rw [h1, roundHalfEven_intCast]
  · have hf : ⌊y⌋ < n := Int.floor_lt.mpr h1
    rcases roundHalfEven_cases y with h2 | h2 <;> omega

theorem ulpExponent_of_bounds (x : ℚ) (k : ℤ) (h1 : (2 : ℚ) ^ k ≤ |x|)
    (h2 : |x| < 2 ^ (k + 1)) (hk : -1022 ≤ k) : ulpExponent x = k - 52 := by
  have hpos : 0 < |x| := lt_of_lt_of_le (by positivity) h1
  have hl1 : k ≤ Int.log 2 |x| :=
    (Int.zpow_le_iff_le_log (by norm_num) hpos).mp (by exact_mod_cast h1)
  have hl2 : Int.log 2 |x| < k + 1 :=
    (Int.lt_zpow_iff_log_lt (by norm_num) hpos).mp (by exact_mod_cast h2)
  unfold ulpExponent
  omega

theorem ulpExponent_le (x : ℚ) (k : ℤ) (h : |x| < 2 ^ (k + 1)) (hk : 0 ≤ k) :
    ulpExponent x ≤ k - 52 := by
  have hlog : Int.log 2 |x| < k + 1 := by
    rcases eq_or_lt_of_le (abs_nonneg x) with h0 | hpos
    · rw [← h0, Int.log_zero_right]; omega
    · exact (Int.lt_zpow_iff_log_lt (by norm_num) hpos).mp (by exact_mod_cast h)
  unfold ulpExponent
  omega

theorem roundBinary64_of_bounds (x : ℚ) (k m : ℤ) (h1 : (2 : ℚ) ^ k ≤ |x|)
    (h2 : |x| < 2 ^ (k + 1)) (hk : -1022 ≤ k)
    (hm1 : (m : ℚ) - 1 / 2 < x / 2 ^ (k - 52)) (hm2 : x / 2 ^ (k - 52) < m + 1 / 2) :
    roundBinary64 x = m * 2 ^ (k - 52) := by
  unfold roundBinary64
  rw [ulpExponent_of_bounds x k h1 h2 hk, roundHalfEven_of_near _ m hm1 hm2]

theorem roundBinary64_zero : roundBinary64 0 = 0 := by
  unfold roundBinary64
  rw [zero_div, show ((0 : ℚ)) = ((0 : ℤ) : ℚ) by norm_num, roundHalfEven_intCast]
  norm_num

theorem roundBinary64_bounds (x : ℚ) (h0 : 0 ≤ x) (h1 : x ≤ 100) :
    0 ≤ roundBinary64 x ∧ roundBinary64 x ≤ 100 := by
  have habs : |x| < 2 ^ ((6 : ℤ) + 1) := by
    rw [abs_of_nonneg h0]
    norm_num
    linarith
  have he : ulpExponent x ≤ -46 := by
    have := ulpExponent_le x 6 habs (by norm_num)
    omega
  obtain ⟨n, hn⟩ := Int.eq_ofNat_of_zero_le (show 0 ≤ -ulpExponent x by omega)
  have he2 : ulpExponent x = -(n : ℤ) := by omega
  unfold roundBinary64
  rw [he2, zpow_neg, zpow_natCast, div_inv_eq_mul]
  have hp : (0 : ℚ) < 2 ^ n := by positivity
  constructor
  · have := roundHalfEven_nonneg (x * 2 ^ n) (by positivity)
    have h3 : (0 : ℚ) ≤ roundHalfEven (x * 2 ^ n) := by exact_mod_cast this
    positivity
  · have h3 : roundHalfEven (x * 2 ^ n) ≤ 100 * 2 ^ n :=
      roundHalfEven_le _ _ (by push_cast; nlinarith)
    have h4 : ((roundHalfEven (x * 2 ^ n) : ℤ) : ℚ) ≤ 100 * 2 ^ n := by exact_mod_cast h3
    rw [← div_eq_mul_inv, div_le_iff₀ hp]
    exact h4

theorem abs_roundBinary64_sub_le (x : ℚ) (h : |x| < 128) :
    |roundBinary64 x - x| ≤ 1 / 2 ^ 47 := by
  have habs : |x| < 2 ^ ((6 : ℤ) + 1) := by
    norm_num
    exact h
  have he : ulpExponent x ≤ -46 := by
    have := ulpExponent_le x 6 habs (by norm_num)
    omega
  have hp : (0 : ℚ) < 2 ^ ulpExponent x := by positivity
  have hle : (2 : ℚ) ^ ulpExponent x ≤ 2 ^ (-46 : ℤ) :=
    zpow_le_zpow_right₀ (by norm_num) he
  have hr := abs_roundHalfEven_sub_le (x / 2 ^ ulpExponent x)
  have heq : roundBinary64 x - x =
      ((roundHalfEven (x / 2 ^ ulpExponent x) : ℚ) - x / 2 ^ ulpExponent x) *
        2 ^ ulpExponent x := by
    unfold roundBinary64
    field_simp
  rw [heq, abs_mul, abs_of_pos hp]
  calc |(roundHalfEven (x / 2 ^ ulpExponent x) : ℚ) - x / 2 ^ ulpExponent x| *
        2 ^ ulpExponent x
      ≤ 1 / 2 * 2 ^ (-46 : ℤ) := mul_le_mul hr hle hp.le (by norm_num)
    _ = 1 / 2 ^ 47 := by norm_num

theorem mulBinary64_zero : mulBinary64 0 100 = 0 := by
  unfold mulBinary64
  rw [zero_mul, roundBinary64_zero]

/-! ## Auxiliary facts about the score locals -/

theorem Math.round_spec (x : ℚ) :
    ((Math.round x : ℤ) : ℚ) - 1 / 2 ≤ x ∧ x < ((Math.round x : ℤ) : ℚ) + 1 / 2 := by
  unfold Math.round
  constructor
  · have h := Int.floor_le (x + 1 / 2)
    linarith
  · have h := Int.lt_floor_add_one (x + 1 / 2)
    linarith

theorem Math.round_bounds (x : ℚ) (h0 : 0 ≤ x) (h1 : x ≤ 100) :
    0 ≤ Math.round x ∧ Math.round x ≤ 100 := by
  unfold Math.round
  constructor
  · exact Int.floor_nonneg.mpr (by linarith)
  · have h : ⌊x + 1 / 2⌋ < 101 := Int.floor_lt.mpr (by push_cast; linarith)
    omega

theorem Math.round_zero : Math.round (mulBinary64 0 100) = 0 := by
  rw [mulBinary64_zero]
  unfold Math.round
  rw [Int.floor_eq_iff]
  norm_num

theorem Math.round_eq (x : ℚ) (n : ℤ) (h1 : (n : ℚ) ≤ x + 1 / 2) (h2 : x + 1 / 2 < n + 1) :
    Math.round x = n := by
  unfold Math.round
  rw [Int.floor_eq_iff]
  exact ⟨h1, h2⟩

theorem orNumber_some (s : ℚ) : orNumber (some s) 0 = s := by
  simp only [orNumber]
  split_ifs with h
  · exact h.symm
  · rfl

theorem orNumber_none : orNumber none 0 = 0 := rfl

theorem seoLocal_of_categories (data : AnalysisResponse) (cats : Categories)
    (h : categoriesOf data = some cats) :
    seoLocal data =
      some (Math.round (mulBinary64 (orNumber (cats.seo.bind Category.score) 0) 100)) := by
  simp only [seoLocal, h]

theorem performanceLocal_of_categories (data : AnalysisResponse) (cats : Categories)
    (h : categoriesOf data = some cats) :
    performanceLocal data =
      some (Math.round
        (mulBinary64 (orNumber (cats.performance.bind Category.score) 0) 100)) := by
  simp only [performanceLocal, h]

theorem seoLocal_none (data : AnalysisResponse) (h : categoriesOf data = none) :
    seoLocal data = none := by
  simp only [seoLocal, h]

theorem performanceLocal_none (data : AnalysisResponse) (h : categoriesOf data = none) :
    performanceLocal data = none := by
  simp only [performanceLocal, h]

theorem seoScore_eq (data : AnalysisResponse) :
    seoScore data = ((categoriesOf data).bind Categories.seo).bind Category.score := by
  unfold seoScore categoriesOf
  cases data.performance with
  | none => rfl
  | some p =>
    cases hl : p.lighthouseResult with
    | none => simp [hl]
    | some l => simp [hl]

theorem performanceScore_eq (data : AnalysisResponse) :
    performanceScore data =
      ((categoriesOf data).bind Categories.performance).bind Category.score := by
  unfold performanceScore categoriesOf
  cases data.performance with
  | none => rfl
  | some p =>
    cases hl : p.lighthouseResult with
    | none => simp [hl]
    | some l => simp [hl]

theorem round_score_bounds (v : Option ℚ) (h : ∀ s, v = some s → 0 ≤ s ∧ s ≤ 1) :
    0 ≤ Math.round (mulBinary64 (orNumber v 0) 100) ∧
      Math.round (mulBinary64 (orNumber v 0) 100) ≤ 100 := by
  cases v with
  | none => rw [orNumber_none, Math.round_zero]; omega
  | some s =>
    obtain ⟨h0, h1⟩ := h s rfl
    rw [orNumber_some]
    obtain ⟨hb0, hb1⟩ := roundBinary64_bounds (s * 100) (by linarith) (by linarith)
    exact Math.round_bounds (mulBinary64 s 100) hb0 hb1

theorem mulBinary64_one : mulBinary64 1 100 = 100 := by
  unfold mulBinary64
  rw [roundBinary64_of_bounds _ 6 (100 * 2 ^ 46) (by norm_num [abs_of_nonneg])
    (by norm_num [abs_of_nonneg]) (by norm_num) (by norm_num) (by norm_num)]
  norm_num

theorem mulBinary64_half : mulBinary64 (1 / 2) 100 = 50 := by
  unfold mulBinary64
  rw [roundBinary64_of_bounds _ 5 (50 * 2 ^ 47) (by norm_num [abs_of_nonneg])
    (by norm_num [abs_of_nonneg]) (by norm_num) (by norm_num) (by norm_num)]
  norm_num

theorem roundBinary64_095 : roundBinary64 (95 / 100) = 4278419646001971 / 2 ^ 52 := by
  rw [roundBinary64_of_bounds _ (-1) 8556839292003942 (by norm_num [abs_of_nonneg])
    (by norm_num [abs_of_nonneg]) (by norm_num) (by norm_num) (by norm_num)]
  norm_num

theorem roundBinary64_062 : roundBinary64 (62 / 100) = 5584463537939415 / 2 ^ 53 := by
  rw [roundBinary64_of_bounds _ (-1) 5584463537939415 (by norm_num [abs_of_nonneg])
    (by norm_num [abs_of_nonneg]) (by norm_num) (by norm_num) (by norm_num)]
  norm_num

theorem mulBinary64_095 : mulBinary64 (roundBinary64 (95 / 100)) 100 = 95 := by
  rw [roundBinary64_095]
  unfold mulBinary64
  rw [roundBinary64_of_bounds _ 6 (95 * 2 ^ 46) (by norm_num [abs_of_nonneg])
    (by norm_num [abs_of_nonneg]) (by norm_num) (by norm_num) (by norm_num)]
  norm_num

theorem mulBinary64_062 : mulBinary64 (roundBinary64 (62 / 100)) 100 = 62 := by
  rw [roundBinary64_062]
  unfold mulBinary64
  rw [roundBinary64_of_bounds _ 5 (62 * 2 ^ 47) (by norm_num [abs_of_nonneg])
    (by norm_num [abs_of_nonneg]) (by norm_num) (by norm_num) (by norm_num)]
  norm_num

theorem isRoundedProduct_round (s : ℚ) (h0 : 0 ≤ s) (h1 : s ≤ 1) :
    IsRoundedProduct (Math.round (mulBinary64 s 100)) s := by
  have herr : |mulBinary64 s 100 - 100 * s| ≤ 1 / 2 ^ 47 := by
    have h := abs_roundBinary64_sub_le (s * 100)
      (by rw [abs_of_nonneg (by linarith)]; linarith)
    unfold mulBinary64
    rwa [mul_comm 100 s]
  refine ⟨Math.round_spec _, herr, ?_⟩
  intro k hk1 hk2
  rw [abs_le] at herr
  exact Math.round_eq _ k (by linarith [herr.1]) (by linarith [herr.2])

/-! ## Scores -/

/-- C1, as stated, fails.  The double written `0.015` is a score in `[0, 1]`;
a hundred times it is less than `3 / 2`, so the integer nearest to `100 * s`
is 1, but the double product `s * 100` is exactly `3 / 2` and the view model
holds `seo = 2` and `performance = 2`. -/
theorem product_rounds_onto_half :
    roundBinary64 (15 / 1000) = nearHalfScore ∧
      (0 ≤ nearHalfScore ∧ nearHalfScore ≤ 1) ∧
      (((1 : ℤ) : ℚ) - 1 / 2 ≤ 100 * nearHalfScore ∧
        100 * nearHalfScore < ((1 : ℤ) : ℚ) + 1 / 2) ∧
      (resultsOf nearHalf).seo = 2 ∧ (resultsOf nearHalf).performance = 2 ∧
      ¬ ((((resultsOf nearHalf).seo : ℤ) : ℚ) - 1 / 2 ≤ 100 * nearHalfScore) := by
  have hd : roundBinary64 (15 / 1000) = nearHalfScore := by
    rw [roundBinary64_of_bounds _ (-7) 8646911284551352 (by norm_num [abs_of_nonneg])
      (by norm_num [abs_of_nonneg]) (by norm_num) (by norm_num) (by norm_num)]
    norm_num [nearHalfScore]
  have hp : mulBinary64 nearHalfScore 100 = 3 / 2 := by
    unfold mulBinary64 nearHalfScore
    rw [roundBinary64_of_bounds _ 0 (3 * 2 ^ 51) (by norm_num [abs_of_nonneg])
      (by norm_num [abs_of_nonneg]) (by norm_num) (by norm_num) (by norm_num)]
    norm_num
  have hr : Math.round (mulBinary64 (orNumber (some nearHalfScore) 0) 100) = 2 := by
    rw [orNumber_some, hp]
    exact Math.round_eq _ 2 (by norm_num) (by norm_num)
  have hseo : (resultsOf nearHalf).seo = 2 := hr
  have hperf : (resultsOf nearHalf).performance = 2 := hr
  refine ⟨hd, ?_, ?_, hseo, hperf, ?_⟩
  · norm_num [nearHalfScore]
  · norm_num [nearHalfScore]
  · rw [hseo]
    norm_num [nearHalfScore]

/-- C1, amended.  When the Lighthouse categories are present and
`categories.X.score` is a number `s` with `0 ≤ s ≤ 1`, for `X` either `seo` or
`performance`, the view model's `X` is the integer nearest, a half going up,
to the double product `s * 100`, that is to `100 * s` rounded to the nearest
binary64 double.  The rounded product is within `2 ^ (-47)` of `100 * s`, and
`X` is the integer nearest to the exact `100 * s` whenever `100 * s` keeps a
distance of `2 ^ (-47)` from every half-integer. -/
theorem score_is_rounded_product (data : AnalysisResponse) (cats : Categories)
    (c : Category) (s : ℚ) (hcats : categoriesOf data = some cats)
    (hscore : c.score = some s) (h0 : 0 ≤ s) (h1 : s ≤ 1) :
    (cats.seo = some c → IsRoundedProduct (resultsOf data).seo s) ∧
    (cats.performance = some c → IsRoundedProduct (resultsOf data).performance s) := by
  constructor
  · intro hc
    have hv : (resultsOf data).seo = Math.round (mulBinary64 s 100) := by
      simp only [resultsOf, seoLocal_of_categories data cats hcats, hc, Option.some_bind,
        hscore, orNumber_some, Option.getD_some]
    rw [hv]
    exact isRoundedProduct_round s h0 h1
  · intro hc
    have hv : (resultsOf data).performance = Math.round (mulBinary64 s 100) := by
      simp only [resultsOf, performanceLocal_of_categories data cats hcats, hc,
        Option.some_bind, hscore, orNumber_some, Option.getD_some]
    rw [hv]
    exact isRoundedProduct_round s h0 h1

/-- C2. When every Lighthouse score that is present lies in `[0, 1]`, the view
model's `seo` and `performance` are integers between 0 and 100, and each of
them is 0 when its source score is absent, whichever step of the path
`performance.lighthouseResult.categories.X.score` is the missing one. -/
theorem scores_in_range_default_zero (data : AnalysisResponse)
    (hseo : ∀ s, seoScore data = some s → 0 ≤ s ∧ s ≤ 1)
    (hperf : ∀ s, performanceScore data = some s → 0 ≤ s ∧ s ≤ 1) :
    (0 ≤ (resultsOf data).seo ∧ (resultsOf data).seo ≤ 100) ∧
    (0 ≤ (resultsOf data).performance ∧ (resultsOf data).performance ≤ 100) ∧
    (seoScore data = none → (resultsOf data).seo = 0) ∧
    (performanceScore data = none → (resultsOf data).performance = 0) := by
  rw [seoScore_eq] at hseo
  rw [performanceScore_eq] at hperf
  rw [seoScore_eq, performanceScore_eq]
  cases hcats : categoriesOf data with
  | none =>
    simp [resultsOf, seoLocal_none data hcats, performanceLocal_none data hcats]
  | some cats =>
    rw [hcats] at hseo hperf
    simp only [Option.some_bind] at hseo hperf
    simp only [resultsOf, seoLocal_of_categories data cats hcats,
      performanceLocal_of_categories data cats hcats, Option.getD_some, Option.some_bind]
    refine ⟨round_score_bounds _ hseo, round_score_bounds _ hperf, ?_, ?_⟩
    · intro h
      rw [h, orNumber_none, Math.round_zero]
    · intro h
      rw [h, orNumber_none, Math.round_zero]

/-! ## Auxiliary facts about the four suggestion fragments -/

theorem beginsWith_altMessage (n : ℕ) : beginsWith "Add alt text to" (altMessage n) := by
  unfold beginsWith altMessage
  rw [String.data_append, String.data_append]
  exact ⟨[' '] ++ (toString n).data ++ " image(s).".data, by simp⟩

theorem mem_altSuggestion (data : AnalysisResponse) (x : String)
    (h : x ∈ altSuggestion data) : beginsWith "Add alt text to" x := by
  unfold altSuggestion at h
  split at h
  · simp at h
  · split_ifs at h
    · simp at h
    · rw [List.mem_singleton] at h
      rw [h]
      exact beginsWith_altMessage _

theorem mem_metaSuggestion (data : AnalysisResponse) (x : String) :
    x ∈ metaSuggestion data ↔
      x = "Add a meta description." ∧
        ∃ m, data.meta = some m ∧ truthyString m.description = false := by
  unfold metaSuggestion
  cases data.meta with
  | none => simp
  | some m => cases h : truthyString m.description <;> simp [h]

theorem mem_seoSuggestion (data : AnalysisResponse) (x : String) :
    x ∈ seoSuggestion data ↔
      x = "Improve SEO best practices." ∧ ∃ v, seoLocal data = some v ∧ v < 90 := by
  unfold seoSuggestion
  cases seoLocal data with
  | none => simp
  | some v => by_cases h : v < 90 <;> simp [h]

theorem mem_performanceSuggestion (data : AnalysisResponse) (x : String) :
    x ∈ performanceSuggestion data ↔
      x = "Improve page speed and performance." ∧
        ∃ v, performanceLocal data = some v ∧ v < 90 := by
  unfold performanceSuggestion
  cases performanceLocal data with
  | none => simp
  | some v => by_cases h : v < 90 <;> simp [h]

theorem not_beginsWith_meta : ¬ beginsWith "Add alt text to" "Add a meta description." := by
  unfold beginsWith; decide

theorem not_beginsWith_seo : ¬ beginsWith "Add alt text to" "Improve SEO best practices." := by
  unfold beginsWith; decide

theorem not_beginsWith_performance :
    ¬ beginsWith "Add alt text to" "Improve page speed and performance." := by
  unfold beginsWith; decide

theorem truthyString_eq_false (v : Option String) :
    truthyString v = false ↔ v = none ∨ v = some "" := by
  cases v with
  | none => simp [truthyString]
  | some s => simp [truthyString]

/-! ## Suggestions -/

/-- C3, as stated, fails.  The response `{images: {missing_alt: ["a.png"]}}`
satisfies all four suggestion predicates as the contract words them (one image
lacks alt text, `meta.description` is absent, both normalized scores are 0),
yet its suggestions are the single alt-text message, not the four-element
list. -/
theorem four_predicates_single_suggestion :
    altPredicate altOnly ∧ metaPredicate altOnly ∧ seoPredicate altOnly ∧
      performancePredicate altOnly ∧
      (resultsOf altOnly).suggestions = ["Add alt text to 1 image(s)."] ∧
      (resultsOf altOnly).suggestions ≠
        [altMessage 1, "Add a meta description.", "Improve SEO best practices.",
          "Improve page speed and performance."] := by
  refine ⟨⟨["a.png"], rfl, by decide⟩, Or.inl rfl, ?_, ?_, ?_, ?_⟩
  · show (0 : ℤ) < 90
    decide
  · show (0 : ℤ) < 90
    decide
  · decide
  · decide

/-- C3, amended.  When `images.missing_alt` is a non-empty sequence, `meta` is
present with `description` absent or empty, the Lighthouse categories are
present and both normalized scores are below 90, the suggestions are exactly
the alt-text message, "Add a meta description.", "Improve SEO best practices."
and "Improve page speed and performance.", in that order. -/
theorem four_suggestions_in_order (data : AnalysisResponse) (l : List String)
    (m : MetaTags) (cats : Categories)
    (halt : missingAlt data = some l) (hne : l ≠ [])
    (hmeta : data.meta = some m)
    (hdesc : m.description = none ∨ m.description = some "")
    (hcats : categoriesOf data = some cats)
    (hseo : (resultsOf data).seo < 90)
    (hperf : (resultsOf data).performance < 90) :
    (resultsOf data).suggestions =
      [altMessage l.length, "Add a meta description.", "Improve SEO best practices.",
        "Improve page speed and performance."] := by
  have hlen : l.length ≠ 0 := fun h => hne (List.length_eq_zero.mp h)
  have h1 : altSuggestion data = [altMessage l.length] := by
    unfold missingAlt at halt
    simp only [altSuggestion, missingAltLength, halt, Option.map_some', hlen, if_false]
  have h2 : metaSuggestion data = ["Add a meta description."] := by
    have ht : truthyString m.description = false := (truthyString_eq_false _).mpr hdesc
    simp [metaSuggestion, hmeta, ht]
  have h3 : seoSuggestion data = ["Improve SEO best practices."] := by
    simp only [resultsOf, seoLocal_of_categories data cats hcats, Option.getD_some] at hseo
    simp only [seoSuggestion, seoLocal_of_categories data cats hcats, hseo, if_true]
  have h4 : performanceSuggestion data = ["Improve page speed and performance."] := by
    simp only [resultsOf, performanceLocal_of_categories data cats hcats,
      Option.getD_some] at hperf
    simp only [performanceSuggestion, performanceLocal_of_categories data cats hcats, hperf,
      if_true]
  simp only [resultsOf, h1, h2, h3, h4, List.cons_append, List.nil_append]

theorem mem_suggestions (data : AnalysisResponse) (x : String) :
    x ∈ (resultsOf data).suggestions ↔
      x ∈ altSuggestion data ∨ x ∈ metaSuggestion data ∨ x ∈ seoSuggestion data ∨
        x ∈ performanceSuggestion data := by
  simp only [resultsOf, List.mem_append, or_assoc]

/-- C4, as stated, fails.  For the response `{}` both normalized scores are 0,
which is below 90, and neither score message is among the suggestions. -/
theorem low_default_scores_no_score_suggestion :
    (resultsOf emptyResponse).seo < 90 ∧
      "Improve SEO best practices." ∉ (resultsOf emptyResponse).suggestions ∧
      (resultsOf emptyResponse).performance < 90 ∧
      "Improve page speed and performance." ∉ (resultsOf emptyResponse).suggestions := by
  refine ⟨?_, ?_, ?_, ?_⟩
  · show (0 : ℤ) < 90
    decide
  · decide
  · show (0 : ℤ) < 90
    decide
  · decide

/-- C4, amended.  The suggestions contain "Improve SEO best practices." if and
only if the Lighthouse categories are present and the normalized `seo` is
below 90; they contain "Improve page speed and performance." if and only if
the Lighthouse categories are present and the normalized `performance` is
below 90. -/
theorem score_suggestion_iff (data : AnalysisResponse) :
    ("Improve SEO best practices." ∈ (resultsOf data).suggestions ↔
      categoriesOf data ≠ none ∧ (resultsOf data).seo < 90) ∧
    ("Improve page speed and performance." ∈ (resultsOf data).suggestions ↔
      categoriesOf data ≠ none ∧ (resultsOf data).performance < 90) := by
  constructor
  · rw [mem_suggestions, mem_metaSuggestion, mem_seoSuggestion, mem_performanceSuggestion]
    have ha : "Improve SEO best practices." ∉ altSuggestion data :=
      fun h => not_beginsWith_seo (mem_altSuggestion data _ h)
    cases hcats : categoriesOf data with
    | none => simp [ha, seoLocal_none data hcats]
    | some cats =>
      simp [ha, resultsOf, seoLocal_of_categories data cats hcats]
  · rw [mem_suggestions, mem_metaSuggestion, mem_seoSuggestion, mem_performanceSuggestion]
    have ha : "Improve page speed and performance." ∉ altSuggestion data :=
      fun h => not_beginsWith_performance (mem_altSuggestion data _ h)
    cases hcats : categoriesOf data with
    | none => simp [ha, performanceLocal_none data hcats]
    | some cats =>
      simp [ha, resultsOf, performanceLocal_of_categories data cats hcats]

/-- C5, as stated, fails.  The response whose only content is two Lighthouse
scores of 1 has no `meta` object, so `meta.description` is absent, and its
suggestions are empty: "Add a meta description." is not among them. -/
theorem absent_meta_no_meta_suggestion :
    metaDescription (scoresOnly (some 1) (some 1)) = none ∧
      (resultsOf (scoresOnly (some 1) (some 1))).suggestions = [] ∧
      "Add a meta description." ∉ (resultsOf (scoresOnly (some 1) (some 1))).suggestions := by
  have hr : Math.round (mulBinary64 (orNumber (some 1) 0) 100) = 100 := by
    rw [orNumber_some, mulBinary64_one]
    exact Math.round_eq _ 100 (by norm_num) (by norm_num)
  have hs : (resultsOf (scoresOnly (some 1) (some 1))).suggestions = [] := by
    have h1 : altSuggestion (scoresOnly (some 1) (some 1)) = [] := rfl
    have h2 : metaSuggestion (scoresOnly (some 1) (some 1)) = [] := rfl
    have h3 : seoSuggestion (scoresOnly (some 1) (some 1)) = [] := by
      have hl : seoLocal (scoresOnly (some 1) (some 1)) = some 100 := by
        rw [← hr]; rfl
      simp only [seoSuggestion, hl]
      decide
    have h4 : performanceSuggestion (scoresOnly (some 1) (some 1)) = [] := by
      have hl : performanceLocal (scoresOnly (some 1) (some 1)) = some 100 := by
        rw [← hr]; rfl
      simp only [performanceSuggestion, hl]
      decide
    simp only [resultsOf, h1, h2, h3, h4, List.append_nil]
  refine ⟨rfl, hs, ?_⟩
  rw [hs]
  exact List.not_mem_nil _

/-- C5, amended.  The suggestions contain "Add a meta description." if and only
if `meta` is present and its `description` is absent or empty. -/
theorem meta_suggestion_iff (data : AnalysisResponse) :
    "Add a meta description." ∈ (resultsOf data).suggestions ↔
      ∃ m, data.meta = some m ∧ (m.description = none ∨ m.description = some "") := by
  rw [mem_suggestions, mem_metaSuggestion, mem_seoSuggestion, mem_performanceSuggestion]
  have ha : "Add a meta description." ∉ altSuggestion data :=
    fun h => not_beginsWith_meta (mem_altSuggestion data _ h)
  simp [ha, truthyString_eq_false]

/-- C6. When `images.missing_alt` is a non-empty sequence of `n` entries, the
first suggestion is "Add alt text to n image(s)." with `n` the number of
entries, whatever `images.count` is; when `images.missing_alt` is absent or
empty, no suggestion begins with "Add alt text to". -/
theorem alt_suggestion_first (data : AnalysisResponse) :
    (∀ l, missingAlt data = some l → l ≠ [] →
      (resultsOf data).suggestions.head? =
        some ("Add alt text to " ++ toString l.length ++ " image(s).")) ∧
    (missingAlt data = none ∨ missingAlt data = some [] →
      ∀ x ∈ (resultsOf data).suggestions, ¬ beginsWith "Add alt text to" x) := by
  constructor
  · intro l halt hne
    have hlen : l.length ≠ 0 := fun h => hne (List.length_eq_zero.mp h)
    have h1 : altSuggestion data = [altMessage l.length] := by
      unfold missingAlt at halt
      simp only [altSuggestion, missingAltLength, halt, Option.map_some', hlen, if_false]
    simp only [resultsOf, h1, List.cons_append, List.nil_append, List.head?_cons]
    rfl
  · intro halt x hx
    have h1 : altSuggestion data = [] := by
      unfold missingAlt at halt
      rcases halt with h | h <;> simp [altSuggestion, missingAltLength, h]
    rw [mem_suggestions, h1, mem_metaSuggestion, mem_seoSuggestion,
      mem_performanceSuggestion] at hx
    rcases hx with hx | ⟨hx, _⟩ | ⟨hx, _⟩ | ⟨hx, _⟩
    · exact absurd hx (List.not_mem_nil _)
    · rw [hx]; exact not_beginsWith_meta
    · rw [hx]; exact not_beginsWith_seo
    · rw [hx]; exact not_beginsWith_performance

/-- C7. When none of the four suggestion predicates holds, that is when
`images.missing_alt` is absent or empty, `meta.description` is present and
non-empty, and both normalized scores are at least 90, the suggestions are the
empty list. -/
theorem no_predicate_no_suggestion (data : AnalysisResponse) (d : String)
    (halt : missingAlt data = none ∨ missingAlt data = some [])
    (hmeta : metaDescription data = some d) (hd : d ≠ "")
    (hseo : 90 ≤ (resultsOf data).seo)
    (hperf : 90 ≤ (resultsOf data).performance) :
    (resultsOf data).suggestions = [] := by
  have h1 : altSuggestion data = [] := by
    unfold missingAlt at halt
    rcases halt with h | h <;> simp [altSuggestion, missingAltLength, h]
  have h2 : metaSuggestion data = [] := by
    unfold metaDescription at hmeta
    cases hm : data.meta with
    | none => simp [metaSuggestion, hm]
    | some m =>
      rw [hm, Option.some_bind] at hmeta
      simp [metaSuggestion, hm, hmeta, truthyString, hd]
  have h3 : seoSuggestion data = [] := by
    cases hcats : categoriesOf data with
    | none => simp [seoSuggestion, seoLocal_none data hcats]
    | some cats =>
      simp only [resultsOf, seoLocal_of_categories data cats hcats, Option.getD_some] at hseo
      simp [seoSuggestion, seoLocal_of_categories data cats hcats, not_lt.mpr hseo]
  have h4 : performanceSuggestion data = [] := by
    cases hcats : categoriesOf data with
    | none => simp [performanceSuggestion, performanceLocal_none data hcats]
    | some cats =>
      simp only [resultsOf, performanceLocal_of_categories data cats hcats,
        Option.getD_some] at hperf
      simp [performanceSuggestion, performanceLocal_of_categories data cats hcats,
        not_lt.mpr hperf]
  simp only [resultsOf, h1, h2, h3, h4, List.append_nil]

/-! ## Keywords -/

/-- C8. When `nlp.top_keywords` is present, the view model's `keywords` is that
very sequence of pairs; when `nlp` or `nlp.top_keywords` is absent, `keywords`
is the empty sequence. -/
theorem keywords_pass_through (data : AnalysisResponse) :
    (∀ kws, topKeywords data = some kws → (resultsOf data).keywords = kws) ∧
    (topKeywords data = none → (resultsOf data).keywords = []) := by
  unfold topKeywords
  constructor
  · intro kws h
    simp only [resultsOf, h, orArray]
  · intro h
    simp only [resultsOf, h, orArray]

/-! ## The empty response -/

/-- C9. For the response `{}` the view model has `seo = 0`, `performance = 0`,
no keywords and no suggestions. -/
theorem empty_response_view_model :
    (resultsOf emptyResponse).seo = 0 ∧ (resultsOf emptyResponse).performance = 0 ∧
      (resultsOf emptyResponse).keywords = [] ∧
      (resultsOf emptyResponse).suggestions = [] :=
  ⟨rfl, rfl, rfl, rfl⟩

/-! ## Failed submissions -/

/-- C10. Whatever the state before the submission, when the backend answers
with a status outside 200-299 the submission ends with the error message
"Failed to analyze.", no results and the loading flag off. -/
theorem non_2xx_is_generic_failure (st : UIState) (status : ℕ)
    (body : Except String AnalysisResponse) (h : ¬ (200 ≤ status ∧ status ≤ 299)) :
    (handleAnalyze st (.responded status body)).error = "Failed to analyze." ∧
      (handleAnalyze st (.responded status body)).results = none ∧
      (handleAnalyze st (.responded status body)).loading = false := by
  have hok : resOk status = false := by
    unfold resOk
    rw [← Bool.not_eq_true, Bool.and_eq_true, decide_eq_true_eq, decide_eq_true_eq]
    exact h
  simp [handleAnalyze, tryBlock, hok]

/-! ## Instances of the theorems on concrete responses -/

/-- The scenario response maps to scores 95 and 62, three suggestions and the
two keywords. -/
theorem scenario_view_model :
    (resultsOf scenario).seo = 95 ∧ (resultsOf scenario).performance = 62 ∧
      (resultsOf scenario).suggestions =
        ["Add alt text to 1 image(s).", "Add a meta description.",
          "Improve page speed and performance."] ∧
      (resultsOf scenario).keywords = [("seo", 12), ("site", 7)] := by
  have hs : seoLocal scenario = some 95 := by
    show some (Math.round (mulBinary64 (orNumber (some (roundBinary64 (95 / 100))) 0) 100)) =
      some 95
    rw [orNumber_some, mulBinary64_095, Math.round_eq _ 95 (by norm_num) (by norm_num)]
  have hp : performanceLocal scenario = some 62 := by
    show some (Math.round (mulBinary64 (orNumber (some (roundBinary64 (62 / 100))) 0) 100)) =
      some 62
    rw [orNumber_some, mulBinary64_062, Math.round_eq _ 62 (by norm_num) (by norm_num)]
  have h1 : altSuggestion scenario = ["Add alt text to 1 image(s)."] := by decide
  have h2 : metaSuggestion scenario = ["Add a meta description."] := by decide
  have h3 : seoSuggestion scenario = [] := by
    simp only [seoSuggestion, hs]; decide
  have h4 : performanceSuggestion scenario = ["Improve page speed and performance."] := by
    simp only [performanceSuggestion, hp]; decide
  refine ⟨?_, ?_, ?_, rfl⟩
  · simp only [resultsOf, hs, Option.getD_some]
  · simp only [resultsOf, hp, Option.getD_some]
  · simp only [resultsOf, h1, h2, h3, h4, List.cons_append, List.nil_append, List.append_nil]

/-- C1, amended, at the scenario response: the categories are present, the
`seo` score is the double written 0.95, and the view model's `seo` stands in
the stated relation to it. -/
theorem score_is_rounded_product_witness :
    categoriesOf scenario =
        some ⟨some ⟨some (roundBinary64 (95 / 100))⟩,
          some ⟨some (roundBinary64 (62 / 100))⟩⟩ ∧
      (0 ≤ roundBinary64 (95 / 100) ∧ roundBinary64 (95 / 100) ≤ 1) ∧
      IsRoundedProduct (resultsOf scenario).seo (roundBinary64 (95 / 100)) :=
  ⟨rfl, by rw [roundBinary64_095]; norm_num,
    (score_is_rounded_product scenario
      ⟨some ⟨some (roundBinary64 (95 / 100))⟩, some ⟨some (roundBinary64 (62 / 100))⟩⟩
      ⟨some (roundBinary64 (95 / 100))⟩ (roundBinary64 (95 / 100)) rfl rfl
      (by rw [roundBinary64_095]; norm_num) (by rw [roundBinary64_095]; norm_num)).1 rfl⟩

/-- C2 at the scenario response, whose scores 0.95 and 0.62 lie in `[0, 1]`. -/
theorem scores_in_range_default_zero_witness :
    (0 ≤ (resultsOf scenario).seo ∧ (resultsOf scenario).seo ≤ 100) ∧
    (0 ≤ (resultsOf scenario).performance ∧ (resultsOf scenario).performance ≤ 100) ∧
    (seoScore scenario = none → (resultsOf scenario).seo = 0) ∧
    (performanceScore scenario = none → (resultsOf scenario).performance = 0) :=
  scores_in_range_default_zero scenario
    (fun s h => by
      have hs : s = roundBinary64 (95 / 100) := (Option.some.inj h).symm
      rw [hs, roundBinary64_095]; norm_num)
    (fun s h => by
      have hs : s = roundBinary64 (62 / 100) := (Option.some.inj h).symm
      rw [hs, roundBinary64_062]; norm_num)

theorem belowPar_scores :
    (resultsOf belowPar).seo = 50 ∧ (resultsOf belowPar).performance = 50 := by
  have h : Math.round (mulBinary64 (orNumber (some (1 / 2)) 0) 100) = 50 := by
    rw [orNumber_some, mulBinary64_half, Math.round_eq _ 50 (by norm_num) (by norm_num)]
  exact ⟨h, h⟩

theorem spotless_scores :
    (resultsOf spotless).seo = 100 ∧ (resultsOf spotless).performance = 100 := by
  have h : Math.round (mulBinary64 (orNumber (some 1) 0) 100) = 100 := by
    rw [orNumber_some, mulBinary64_one, Math.round_eq _ 100 (by norm_num) (by norm_num)]
  exact ⟨h, h⟩

/-- C3, amended, at `belowPar`: two images lack alt text, the description is
empty and both scores normalize to 50. -/
theorem four_suggestions_in_order_witness :
    (resultsOf belowPar).suggestions =
      ["Add alt text to 2 image(s).", "Add a meta description.",
        "Improve SEO best practices.", "Improve page speed and performance."] :=
  four_suggestions_in_order belowPar ["a.png", "b.png"] [("description", "")]
    ⟨some ⟨some (1 / 2)⟩, some ⟨some (1 / 2)⟩⟩ rfl (by decide) rfl (Or.inr rfl) rfl
    (by rw [belowPar_scores.1]; decide) (by rw [belowPar_scores.2]; decide)

/-- C6 at the scenario response: one image lacks alt text while `images.count`
is 5, and the first suggestion speaks of 1 image. -/
theorem alt_suggestion_first_witness :
    (resultsOf scenario).suggestions.head? = some "Add alt text to 1 image(s)." :=
  (alt_suggestion_first scenario).1 ["a.png"] rfl (by decide)

/-- C7 at `spotless`: no image lacks alt text, the description is non-empty and
both scores normalize to 100. -/
theorem no_predicate_no_suggestion_witness :
    (resultsOf spotless).suggestions = [] :=
  no_predicate_no_suggestion spotless "A page about tea" (Or.inr rfl) rfl (by decide)
    (by rw [spotless_scores.1]; decide) (by rw [spotless_scores.2]; decide)

/-- C8 at the scenario response: its two keywords come out unchanged. -/
theorem keywords_pass_through_witness :
    (resultsOf scenario).keywords = [("seo", 12), ("site", 7)] :=
  (keywords_pass_through scenario).1 [("seo", 12), ("site", 7)] rfl

/-- C10 at status 500, starting from a state that shows earlier results. -/
theorem non_2xx_is_generic_failure_witness :
    showingResults.results ≠ none ∧
      (handleAnalyze showingResults (.responded 500 (.ok scenario))).error =
        "Failed to analyze." ∧
      (handleAnalyze showingResults (.responded 500 (.ok scenario))).results = none ∧
      (handleAnalyze showingResults (.responded 500 (.ok scenario))).loading = false :=
  ⟨by simp [showingResults],
    non_2xx_is_generic_failure showingResults 500 (.ok scenario) (by decide)⟩

end SeoOptimizer
